import Mathlib

/-!
Verification of `scripts/self_clock_sync.py` (32-Aspectual Self-Clock).

The script is a single-pass pipeline: load a codex JSON file and a
self-clock state JSON file (with fallbacks when missing or malformed),
recompute each aspect's activation and 8-component field vector from the
two codex scalars `CI` and `CF`, aggregate a mean-based SCI and an
energy–matter sum, overwrite the state file and append one log entry.

Embedding choices:
* Python floats are modelled as exact rationals `ℚ`.  The irrational
  constants of the script — `phi() = (1+√5)/2`, `math.sin(x*π)` and
  `math.cos(x*π/2)` — are abstract parameters (`phi_val`, `sin_pi`,
  `cos_halfpi`): every claim relates expressions that apply the very same
  operations on both sides, so no property here depends on their values.
* `round(x, n)` is modelled exactly: round-half-to-even on the scaled
  rational, Python's documented tie rule.
* Python's `/`, which raises `ZeroDivisionError` on a zero divisor, is
  modelled by the `Option`-valued `pydiv` at the one place where the
  divisor is run-time data (the mean in the aggregator); every other
  division in the script has a constant nonzero or guarded divisor.
* The filesystem is a record of the three files' (typed) contents; a
  missing-or-malformed file is `none`, matching `load_json`'s fallback
  collapse of those two cases (proved separately for `load_json` itself
  over an abstract path/content model).
-/

namespace SelfClock

/-- Round a rational to the nearest integer, ties to even
(the tie rule of Python 3's built-in `round`). -/
def pyround (x : ℚ) : ℤ :=
  let f : ℤ := ⌊x⌋
  let r : ℚ := x - f
  if r < 1/2 then f
  else if 1/2 < r then f + 1
  else if f % 2 = 0 then f else f + 1

/-- Python's `round(x, n)`: round to `n` decimal digits. -/
def roundTo (n : ℕ) (x : ℚ) : ℚ :=
  ((pyround (x * 10 ^ n) : ℤ) : ℚ) / 10 ^ n

/-- Python's `/`: raises `ZeroDivisionError` on a zero divisor,
modelled as `none`. -/
def pydiv (a b : ℚ) : Option ℚ :=
  if b = 0 then none else some (a / b)

/-- The 8 named components written under `"field_vector"` by
`update_aspect`. -/
structure FieldVectorT where
  G : ℚ
  R : ℚ
  P : ℚ
  A : ℚ
  N : ℚ
  T : ℚ
  Cx : ℚ
  Id : ℚ
deriving DecidableEq

/-- One aspect record, as read from / written to the state file.
`ring` and `stage` are numeric fields (`ℚ`); default-generated aspects
carry integer values and no `field_vector` key (`none`). -/
structure Aspect where
  name : String
  activation : ℚ
  ring : ℚ
  stage : ℚ
  field_vector : Option FieldVectorT
deriving DecidableEq

/-- The relevant keys of the codex JSON document; each is optional
because the script reads them with `dict.get` and a default. -/
structure CodexJson where
  coherence_index_CI : Option ℚ
  compassion_constraint_Cf : Option ℚ
  codex_sync_signature : Option String
  phi_constant : Option ℚ
deriving DecidableEq

/-- The self-clock state document written by the script (§5 of the
source); `"ϕ_constant"` is rendered as `phi_constant`. -/
structure SelfClockState where
  timestamp : String
  phi_constant : ℚ
  semantic_coherence_index_SCI : ℚ
  energy_matter_sum : ℚ
  codex_reference_signature : String
  aspects : List Aspect
deriving DecidableEq

/-- One log entry `{timestamp, SCI, ΣE}`; the `"ΣE"` key is rendered as
`energy_matter_sum`. -/
structure LogEntry where
  timestamp : String
  SCI : ℚ
  energy_matter_sum : ℚ
deriving DecidableEq

/-- The three files the script touches.  `none` stands for a file that
is missing (or whose content fails to parse, which `load_json` treats
identically). -/
structure World where
  codexFile : Option CodexJson
  stateFile : Option SelfClockState
  logFile : Option (List LogEntry)
deriving DecidableEq

/-- `load_json(path, fallback)`: return the fallback when the file does
not exist, otherwise parse it, returning the fallback on a
`json.JSONDecodeError`.  The filesystem is an abstract map from paths to
raw contents and `parse` an abstract JSON parser. -/
def load_json {P J : Type} (fs : P → Option String) (parse : String → Option J)
    (path : P) (fallback : J) : J :=
  match fs path with
  | none => fallback
  | some content =>
    match parse content with
    | some j => j
    | none => fallback

/-- The fixed ordered list of the 32 aspect names. -/
def DEFAULT_ASPECTS : List String :=
  ["Awareness",
   "Attention",
   "Perception (Visual)",
   "Perception (Auditory)",
   "Perception (Somatosensory)",
   "Interoception",
   "Proprioception",
   "Arousal/Vigilance",
   "Working Memory",
   "Episodic Memory",
   "Semantic Memory",
   "Language/Symbolics",
   "Imagination/Visualization",
   "Mental Time Travel",
   "Planning/Prospection",
   "Decision-Making",
   "Inhibition/Self-Control",
   "Cognitive Flexibility",
   "Meta-Awareness",
   "Self-Model/Identity",
   "Emotion Processing",
   "Motivation/Drive",
   "Reward/Valuation",
   "Empathy/Theory of Mind",
   "Social Cognition",
   "Moral Reasoning",
   "Spatial Cognition",
   "Rhythm/Timing",
   "Creativity/Divergence",
   "Learning/Plasticity",
   "Dreaming/Imagery",
   "Narrative/Meaning-Making"]

/-- The default state payload `{"aspects": [...]}`. -/
structure ClockDoc where
  aspects : List Aspect
deriving DecidableEq

/-- `default_self_clock_state()`: for 0-based index `i`,
`ring = i // 4 + 1`, `stage = i % 12 + 1`, `activation = 0`, and no
`field_vector` key yet. -/
def default_self_clock_state : ClockDoc :=
  ⟨DEFAULT_ASPECTS.enum.map fun p =>
    { name := p.2
      activation := 0
      ring := ((p.1 / 4 + 1 : ℕ) : ℚ)
      stage := ((p.1 % 12 + 1 : ℕ) : ℚ)
      field_vector := none }⟩

/-- The fallback dictionary passed to `load_json` for the codex file:
`{"coherence_index_CI": 0.96, "compassion_constraint_Cf": 0.94,
"ϕ_constant": phi()}` (it carries no `codex_sync_signature` key). -/
def fallback_codex (phi_val : ℚ) : CodexJson :=
  { coherence_index_CI := some 0.96
    compassion_constraint_Cf := some 0.94
    codex_sync_signature := none
    phi_constant := some phi_val }

/-- `normalize(value, minimum, maximum)`. -/
def normalize (value minimum maximum : ℚ) : ℚ :=
  if maximum ≤ minimum then 0
  else (value - minimum) / (maximum - minimum)

/-- `update_aspect(aspect, ci, cf)`: recompute the activation and the
field vector from `ring`, `stage`, `ci`, `cf`.  `sin_pi x` stands for
`math.sin(x * math.pi)` and `cos_halfpi x` for
`math.cos(x * math.pi / 2)`, exactly the shapes the source applies them
in. -/
def update_aspect (phi_val : ℚ) (sin_pi cos_halfpi : ℚ → ℚ)
    (aspect : Aspect) (ci cf : ℚ) : Aspect :=
  let ring := aspect.ring
  let stage := aspect.stage
  let resonance := ci * cf / phi_val * (1 + (ring / 8) * 0.05)
  { aspect with
    activation := roundTo 2 (resonance * (stage / 12) * 100)
    field_vector := some
      { G := roundTo 3 (normalize ring 1 8)
        R := roundTo 3 (normalize stage 1 12)
        P := roundTo 3 (ci / phi_val)
        A := roundTo 3 (cf / phi_val)
        N := roundTo 3 (sin_pi (stage / 12))
        T := roundTo 3 (cos_halfpi (ring / 8))
        Cx := roundTo 3 ((ring + stage) / (8 + 12))
        Id := roundTo 3 (1 - |ci - cf|) } }

/-- `CI = float(codex_data.get("coherence_index_CI", 0.96))`. -/
def CI_of (codex : CodexJson) : ℚ := codex.coherence_index_CI.getD 0.96

/-- `CF = float(codex_data.get("compassion_constraint_Cf", 0.94))`. -/
def CF_of (codex : CodexJson) : ℚ := codex.compassion_constraint_Cf.getD 0.94

/-- `codex_data.get("codex_sync_signature", "N/A")`. -/
def sig_of (codex : CodexJson) : String := codex.codex_sync_signature.getD "N/A"

/-- `aspect["field_vector"]["A"] + aspect["field_vector"]["N"]`.  The
`none` branch is unreachable in the pipeline: the sum ranges over
updated aspects, which always carry a field vector. -/
def energy_term (a : Aspect) : ℚ :=
  match a.field_vector with
  | some fv => fv.A + fv.N
  | none => 0

/-- `SCI = round(sum(activation) / len(aspects), 3)` — `none` when the
aspect list is empty (Python's `ZeroDivisionError`). -/
def SCI_of (aspects : List Aspect) : Option ℚ :=
  (pydiv ((aspects.map Aspect.activation).sum) (aspects.length : ℚ)).map
    (roundTo 3)

/-- `ENERGY_MATTER_SUM = round(sum(A + N over aspects), 3)`. -/
def energy_matter_sum_of (aspects : List Aspect) : ℚ :=
  roundTo 3 ((aspects.map energy_term).sum)

/-- `current_data["aspects"]`: the aspects of the loaded state file, or
the default payload's aspects when that file is missing or malformed. -/
def current_aspects (stateFile : Option SelfClockState) : List Aspect :=
  match stateFile with
  | some s => s.aspects
  | none => default_self_clock_state.aspects

/-- `UPDATED_ASPECTS`: every current aspect updated with the loaded (or
fallback) `CI` and `CF`. -/
def updated_aspects (phi_val : ℚ) (sin_pi cos_halfpi : ℚ → ℚ) (w : World) :
    List Aspect :=
  let codex := w.codexFile.getD (fallback_codex phi_val)
  (current_aspects w.stateFile).map fun a =>
    update_aspect phi_val sin_pi cos_halfpi a (CI_of codex) (CF_of codex)

/-- One full run of the script, at timestamp `ts`: recompute the
aspects, aggregate, overwrite the state file and append one log entry.
`none` models the `ZeroDivisionError` the script dies of (before any
write) when the aspect list is empty. -/
def runOnce (phi_val : ℚ) (sin_pi cos_halfpi : ℚ → ℚ) (ts : String)
    (w : World) : Option World :=
  let codex := w.codexFile.getD (fallback_codex phi_val)
  let updated := updated_aspects phi_val sin_pi cos_halfpi w
  match SCI_of updated with
  | none => none
  | some sci =>
    let ems := energy_matter_sum_of updated
    some
      { codexFile := w.codexFile
        stateFile := some
          { timestamp := ts
            phi_constant := roundTo 6 phi_val
            semantic_coherence_index_SCI := sci
            energy_matter_sum := ems
            codex_reference_signature := sig_of codex
            aspects := updated }
        logFile := some ((w.logFile.getD []) ++
          [{ timestamp := ts, SCI := sci, energy_matter_sum := ems }]) }

/-- Iterated runs, one per timestamp, each starting from the files the
previous run left behind. -/
def runN (phi_val : ℚ) (sin_pi cos_halfpi : ℚ → ℚ) :
    List String → World → Option World
  | [], w => some w
  | ts :: tss, w =>
    match runOnce phi_val sin_pi cos_halfpi ts w with
    | none => none
    | some w2 => runN phi_val sin_pi cos_halfpi tss w2

/-- The SCI a run starting from `w` computes (meaningful when the aspect
list is non-empty). -/
def run_SCI (phi_val : ℚ) (sin_pi cos_halfpi : ℚ → ℚ) (w : World) : ℚ :=
  let updated := updated_aspects phi_val sin_pi cos_halfpi w
  roundTo 3 ((updated.map Aspect.activation).sum / (updated.length : ℚ))

/-- The energy–matter sum a run starting from `w` computes. -/
def run_EMS (phi_val : ℚ) (sin_pi cos_halfpi : ℚ → ℚ) (w : World) : ℚ :=
  energy_matter_sum_of (updated_aspects phi_val sin_pi cos_halfpi w)

/-- The log entry a run starting from `w` at timestamp `ts` appends. -/
def run_entry (phi_val : ℚ) (sin_pi cos_halfpi : ℚ → ℚ) (ts : String)
    (w : World) : LogEntry :=
  { timestamp := ts
    SCI := run_SCI phi_val sin_pi cos_halfpi w
    energy_matter_sum := run_EMS phi_val sin_pi cos_halfpi w }

/-- The log entries a sequence of successful runs appends, in run
order. -/
def run_log (phi_val : ℚ) (sin_pi cos_halfpi : ℚ → ℚ) :
    List String → World → List LogEntry
  | [], _ => []
  | ts :: tss, w =>
    match runOnce phi_val sin_pi cos_halfpi ts w with
    | none => []
    | some w2 =>
      run_entry phi_val sin_pi cos_halfpi ts w ::
        run_log phi_val sin_pi cos_halfpi tss w2

/-- The world a successful run at timestamp `ts` leaves behind:
`codexFile` untouched, the state file overwritten, the log extended by
one entry. -/
def run_world (phi_val : ℚ) (sin_pi cos_halfpi : ℚ → ℚ) (ts : String)
    (w : World) : World :=
  { codexFile := w.codexFile
    stateFile := some
      { timestamp := ts
        phi_constant := roundTo 6 phi_val
        semantic_coherence_index_SCI := run_SCI phi_val sin_pi cos_halfpi w
        energy_matter_sum := run_EMS phi_val sin_pi cos_halfpi w
        codex_reference_signature := sig_of (w.codexFile.getD (fallback_codex phi_val))
        aspects := updated_aspects phi_val sin_pi cos_halfpi w }
    logFile := some ((w.logFile.getD []) ++ [run_entry phi_val sin_pi cos_halfpi ts w]) }

/-- A throwaway aspect for total list indexing. -/
def aspect0 : Aspect :=
  { name := "", activation := 0, ring := 0, stage := 0, field_vector := none }

/-- A throwaway field vector for total field access. -/
def fv0 : FieldVectorT :=
  { G := 0, R := 0, P := 0, A := 0, N := 0, T := 0, Cx := 0, Id := 0 }

/-- A state document whose aspect list is empty (an externally edited
state file). -/
def emptyState : SelfClockState :=
  { timestamp := ""
    phi_constant := 0
    semantic_coherence_index_SCI := 0
    energy_matter_sum := 0
    codex_reference_signature := ""
    aspects := [] }

/-- A world whose state file holds an empty aspect list. -/
def wEmpty : World :=
  { codexFile := none, stateFile := some emptyState, logFile := none }

/-- A filesystem on which every path is missing. -/
def fsNone : Unit → Option String := fun _ => none

/-- A filesystem on which the (only) path holds the content `"x"`. -/
def fsSome : Unit → Option String := fun _ => some "x"

/-- A JSON reader that fails on every content (malformed file). -/
def parseNone : String → Option ℕ := fun _ => none

/-- A JSON reader that returns `5` on every content. -/
def parseFive : String → Option ℕ := fun _ => some 5

/-- The identity on `ℚ`, used to instantiate the abstract transcendental
functions at concrete checks. -/
def qid : ℚ → ℚ := fun q => q

/-- A world with all three files absent. -/
def world0 : World := { codexFile := none, stateFile := none, logFile := none }

/-- The world after one run over absent files (concrete check input). -/
def w1c : World := (runOnce 2 qid qid "t1" world0).getD world0

/-- The world after a second run on top of `w1c` (concrete check
input). -/
def w2c : World := (runOnce 2 qid qid "t2" w1c).getD world0

theorem SCI_of_nil : SCI_of ([] : List Aspect) = none := by
  simp [SCI_of, pydiv]

theorem SCI_of_ne_nil (l : List Aspect) (h : l ≠ []) :
    SCI_of l = some (roundTo 3 ((l.map Aspect.activation).sum / (l.length : ℚ))) := by
  have h0 : (l.length : ℚ) ≠ 0 :=
    Nat.cast_ne_zero.mpr fun hl => h (List.length_eq_zero.mp hl)
  simp [SCI_of, pydiv, h0]

theorem runOnce_eq_of_ne_nil (p : ℚ) (s c : ℚ → ℚ) (ts : String) (w : World)
    (h : updated_aspects p s c w ≠ []) :
    runOnce p s c ts w = some (run_world p s c ts w) := by
  simp [runOnce, run_world, run_entry, run_SCI, run_EMS, SCI_of_ne_nil _ h]

theorem runOnce_none_of_nil (p : ℚ) (s c : ℚ → ℚ) (ts : String) (w : World)
    (h : updated_aspects p s c w = []) :
    runOnce p s c ts w = none := by
  simp [runOnce, h, SCI_of_nil]

theorem runOnce_some_inv (p : ℚ) (s c : ℚ → ℚ) (ts : String) (w w' : World)
    (h : runOnce p s c ts w = some w') :
    updated_aspects p s c w ≠ [] ∧ w' = run_world p s c ts w := by
  by_cases hn : updated_aspects p s c w = []
  · rw [runOnce_none_of_nil p s c ts w hn] at h
    exact absurd h (by simp)
  · refine ⟨hn, ?_⟩
    rw [runOnce_eq_of_ne_nil p s c ts w hn] at h
    exact (Option.some_injective _ h).symm

theorem update_aspect_idem (p : ℚ) (s c : ℚ → ℚ) (a : Aspect) (ci cf : ℚ) :
    update_aspect p s c (update_aspect p s c a ci cf) ci cf
      = update_aspect p s c a ci cf := rfl

theorem runN_log (p : ℚ) (s c : ℚ → ℚ) (tss : List String) :
    ∀ w w', runN p s c tss w = some w' →
      w'.logFile.getD [] = w.logFile.getD [] ++ run_log p s c tss w ∧
      (run_log p s c tss w).length = tss.length := by
  induction tss with
  | nil =>
    intro w w' h
    simp only [runN, Option.some.injEq] at h
    subst h
    simp [run_log]
  | cons ts tss ih =>
    intro w w' h
    rcases hstep : runOnce p s c ts w with _ | w2
    · simp [runN, hstep] at h
    · have h2 : runN p s c tss w2 = some w' := by
        simpa [runN, hstep] using h
      obtain ⟨ih1, ih2⟩ := ih w2 w' h2
      obtain ⟨hne, hw2⟩ := runOnce_some_inv p s c ts w w2 hstep
      have hlog : w2.logFile.getD [] = w.logFile.getD [] ++ [run_entry p s c ts w] := by
        rw [hw2]; rfl
      constructor
      · rw [ih1, hlog]
        simp [run_log, hstep, List.append_assoc]
      · simp [run_log, hstep, ih2]

/-- Claim C1: for every aspect record with numeric `ring` and `stage`
and scalars `ci`, `cf`, `update_aspect` returns the aspect with
`activation = round(ci*cf/phi * (1 + (ring/8)*0.05) * (stage/12) * 100, 2)`
and field-vector components `G = round(normalize(ring,1,8),3)`,
`R = round(normalize(stage,1,12),3)`, `P = round(ci/phi,3)`,
`A = round(cf/phi,3)`, `N = round(sin(stage/12*pi),3)`,
`T = round(cos(ring/8*pi/2),3)`, `Cx = round((ring+stage)/20,3)`,
`Id = round(1-|ci-cf|,3)`; in particular the default aspect at index 0
has `ring = 1`, `stage = 1` and, with `ci = 0.96`, `cf = 0.94`, its
activation is `round(0.96*0.94/phi*(1+0.00625) * (1/12) * 100, 2)`. -/
theorem claim_C1_update_formula (p : ℚ) (s c : ℚ → ℚ) (a : Aspect) (ci cf : ℚ) :
    (update_aspect p s c a ci cf).activation
        = roundTo 2 (ci * cf / p * (1 + (a.ring / 8) * 0.05) * (a.stage / 12) * 100)
    ∧ (update_aspect p s c a ci cf).field_vector = some
        { G := roundTo 3 (normalize a.ring 1 8)
          R := roundTo 3 (normalize a.stage 1 12)
          P := roundTo 3 (ci / p)
          A := roundTo 3 (cf / p)
          N := roundTo 3 (s (a.stage / 12))
          T := roundTo 3 (c (a.ring / 8))
          Cx := roundTo 3 ((a.ring + a.stage) / 20)
          Id := roundTo 3 (1 - |ci - cf|) }
    ∧ (default_self_clock_state.aspects.getD 0 aspect0).ring = 1
    ∧ (default_self_clock_state.aspects.getD 0 aspect0).stage = 1
    ∧ (update_aspect p s c (default_self_clock_state.aspects.getD 0 aspect0) 0.96 0.94).activation
        = roundTo 2 ((0.96 * 0.94 / p * (1 + 0.00625)) * (1 / 12) * 100) := by
  have h1 : default_self_clock_state.aspects.getD 0 aspect0 =
      { name := "Awareness", activation := 0, ring := 1, stage := 1,
        field_vector := none } := rfl
  refine ⟨rfl, ?_, rfl, rfl, ?_⟩
  · show some _ = some _
    norm_num [update_aspect]
  · rw [h1]
    simp only [update_aspect]
    congr 1
    ring_nf

/-- Claim C2: each successful run appends exactly one log entry
`{timestamp, SCI, energy_matter_sum}` to the end of the log array,
preserving all prior entries; after `N` runs starting from an absent or
empty log the log holds exactly `N` entries in run order, the entry of
run `i` carrying the SCI computed in run `i` (`run_log` builds each
entry from `run_SCI` of that run's starting world). -/
theorem claim_C2_log_invariant (p : ℚ) (s c : ℚ → ℚ) :
    (∀ ts w w', runOnce p s c ts w = some w' →
        w'.logFile = some ((w.logFile.getD []) ++ [run_entry p s c ts w]))
    ∧ (∀ tss w w', w.logFile.getD [] = [] →
        runN p s c tss w = some w' →
        w'.logFile.getD [] = run_log p s c tss w
          ∧ (run_log p s c tss w).length = tss.length) := by
  constructor
  · intro ts w w' h
    obtain ⟨-, hw⟩ := runOnce_some_inv p s c ts w w' h
    rw [hw]; rfl
  · intro tss w w' h0 h
    obtain ⟨h1, h2⟩ := runN_log p s c tss w w' h
    refine ⟨?_, h2⟩
    rw [h1, h0]
    simp

/-- Concrete check for claim C2: one run from an all-absent world
leaves exactly the one-entry run log. -/
theorem claim_C2_witness :
    ((runN 2 qid qid ["t1"] world0).getD world0).logFile.getD []
        = run_log 2 qid qid ["t1"] world0
      ∧ (run_log 2 qid qid ["t1"] world0).length = (["t1"] : List String).length :=
  (claim_C2_log_invariant 2 qid qid).2 ["t1"] world0
    ((runN 2 qid qid ["t1"] world0).getD world0) rfl (by rfl)

/-- Claim C3: over the final aspect sequence produced by the Harmonizer
(a non-empty list mapped through `update_aspect`), the aggregator
computes `SCI = round(mean(activation), 3)` and
`energy_matter_sum = round(sum(field_vector.A + field_vector.N), 3)`. -/
theorem claim_C3_aggregator (p : ℚ) (s c : ℚ → ℚ) (ci cf : ℚ) (l0 : List Aspect)
    (h : l0 ≠ []) :
    SCI_of (l0.map fun a => update_aspect p s c a ci cf)
        = some (roundTo 3
            (((l0.map fun a => update_aspect p s c a ci cf).map Aspect.activation).sum
              / ((l0.map fun a => update_aspect p s c a ci cf).length : ℚ)))
    ∧ energy_matter_sum_of (l0.map fun a => update_aspect p s c a ci cf)
        = roundTo 3
            (((l0.map fun a => update_aspect p s c a ci cf).map fun a =>
                (a.field_vector.getD fv0).A + (a.field_vector.getD fv0).N).sum) := by
  constructor
  · exact SCI_of_ne_nil _ fun hm => h (by simpa using hm)
  · unfold energy_matter_sum_of
    congr 1
    rw [List.map_map, List.map_map]
    rfl

/-- Concrete check for claim C3 on a one-element aspect list. -/
theorem claim_C3_witness :
    SCI_of ([aspect0].map fun a => update_aspect 2 qid qid a 1 1)
        = some (roundTo 3
            ((([aspect0].map fun a => update_aspect 2 qid qid a 1 1).map Aspect.activation).sum
              / (([aspect0].map fun a => update_aspect 2 qid qid a 1 1).length : ℚ)))
    ∧ energy_matter_sum_of ([aspect0].map fun a => update_aspect 2 qid qid a 1 1)
        = roundTo 3
            ((([aspect0].map fun a => update_aspect 2 qid qid a 1 1).map fun a =>
                (a.field_vector.getD fv0).A + (a.field_vector.getD fv0).N).sum) :=
  claim_C3_aggregator 2 qid qid 1 1 [aspect0] (by simp)

/-- Claim C4: `load_json` returns the parsed content of the file at
`path` when it exists and parses, and returns the fallback unchanged
both when the file is missing and when its content fails to parse; as a
total Lean function of a read-only filesystem it neither raises nor has
side effects. -/
theorem claim_C4_load_json {Pa J : Type} (fs : Pa → Option String)
    (parse : String → Option J) (path : Pa) (fallback : J) :
    (fs path = none → load_json fs parse path fallback = fallback)
    ∧ (∀ s, fs path = some s → parse s = none →
        load_json fs parse path fallback = fallback)
    ∧ (∀ s j, fs path = some s → parse s = some j →
        load_json fs parse path fallback = j) := by
  refine ⟨fun h => ?_, fun s h hp => ?_, fun s j h hp => ?_⟩
  · simp [load_json, h]
  · simp [load_json, h, hp]
  · simp [load_json, h, hp]

/-- Concrete check for claim C4: missing file, malformed file, and
well-formed file. -/
theorem claim_C4_witness :
    load_json fsNone parseFive () 7 = 7
    ∧ load_json fsSome parseNone () 7 = 7
    ∧ load_json fsSome parseFive () 7 = 5 :=
  ⟨(claim_C4_load_json fsNone parseFive () 7).1 rfl,
   (claim_C4_load_json fsSome parseNone () 7).2.1 "x" rfl rfl,
   (claim_C4_load_json fsSome parseFive () 7).2.2 "x" 5 rfl rfl⟩

/-- Claim C5: default aspect generation produces exactly 32 aspects in
the fixed name order, the aspect at 0-based index `i` carrying
`ring = i / 4 + 1`, `stage = i % 12 + 1` and `activation = 0`; hence
every default aspect satisfies `ring ∈ [1,8]` and `stage ∈ [1,12]`. -/
theorem claim_C5_default_state :
    default_self_clock_state.aspects.length = 32
    ∧ default_self_clock_state.aspects.map Aspect.name = DEFAULT_ASPECTS
    ∧ ∀ i : Fin 32,
        (default_self_clock_state.aspects.getD i aspect0).ring
            = (((i : ℕ) / 4 + 1 : ℕ) : ℚ)
        ∧ (default_self_clock_state.aspects.getD i aspect0).stage
            = (((i : ℕ) % 12 + 1 : ℕ) : ℚ)
        ∧ (default_self_clock_state.aspects.getD i aspect0).activation = 0
        ∧ 1 ≤ (default_self_clock_state.aspects.getD i aspect0).ring
        ∧ (default_self_clock_state.aspects.getD i aspect0).ring ≤ 8
        ∧ 1 ≤ (default_self_clock_state.aspects.getD i aspect0).stage
        ∧ (default_self_clock_state.aspects.getD i aspect0).stage ≤ 12 :=
  ⟨by decide, by decide, by decide⟩

/-- Claim C6: when the codex file is missing the loader falls back to
`CI = 0.96`, `CF = 0.94` and an effective signature `"N/A"`, and the
state written by that run carries `codex_reference_signature = "N/A"`. -/
theorem claim_C6_missing_codex (p : ℚ) (s c : ℚ → ℚ) (ts : String) (w w' : World)
    (hmiss : w.codexFile = none) (hrun : runOnce p s c ts w = some w') :
    CI_of (w.codexFile.getD (fallback_codex p)) = 0.96
    ∧ CF_of (w.codexFile.getD (fallback_codex p)) = 0.94
    ∧ sig_of (w.codexFile.getD (fallback_codex p)) = "N/A"
    ∧ ∃ st, w'.stateFile = some st ∧ st.codex_reference_signature = "N/A" := by
  have hc : w.codexFile.getD (fallback_codex p) = fallback_codex p := by
    rw [hmiss]; rfl
  obtain ⟨-, hw⟩ := runOnce_some_inv p s c ts w w' hrun
  refine ⟨by rw [hc]; rfl, by rw [hc]; rfl, by rw [hc]; rfl, ?_⟩
  rw [hw]
  refine ⟨_, rfl, ?_⟩
  show sig_of (w.codexFile.getD (fallback_codex p)) = "N/A"
  rw [hc]; rfl

/-- Concrete check for claim C6: one run with all files absent. -/
theorem claim_C6_witness :
    CI_of (world0.codexFile.getD (fallback_codex 2)) = 0.96
    ∧ CF_of (world0.codexFile.getD (fallback_codex 2)) = 0.94
    ∧ sig_of (world0.codexFile.getD (fallback_codex 2)) = "N/A"
    ∧ ∃ st, ((runOnce 2 qid qid "t" world0).getD world0).stateFile = some st
        ∧ st.codex_reference_signature = "N/A" :=
  claim_C6_missing_codex 2 qid qid "t" world0
    ((runOnce 2 qid qid "t" world0).getD world0) rfl (by rfl)

/-- Claim C7: on an empty loaded aspect sequence the aggregator's mean
divides by zero — the SCI computation is undefined (`none`) and the run
fails before writing anything (`runOnce` returns `none`). -/
theorem claim_C7_empty_aspects (p : ℚ) (s c : ℚ → ℚ) (ts : String) (w : World)
    (h : current_aspects w.stateFile = []) :
    SCI_of (updated_aspects p s c w) = none ∧ runOnce p s c ts w = none := by
  have hu : updated_aspects p s c w = [] := by simp [updated_aspects, h]
  exact ⟨by rw [hu]; exact SCI_of_nil, runOnce_none_of_nil p s c ts w hu⟩

/-- Concrete check for claim C7: a state file holding an empty aspect
list. -/
theorem claim_C7_witness :
    SCI_of (updated_aspects 2 qid qid wEmpty) = none
    ∧ runOnce 2 qid qid "t" wEmpty = none :=
  claim_C7_empty_aspects 2 qid qid "t" wEmpty rfl

/-- Claim C8: running the pipeline a second time with the codex file
unchanged, starting from the state written by the first run, yields the
same field vector for every aspect as the first run, while the log
gains one new entry on each of the two runs. -/
theorem claim_C8_rerun_stable (p : ℚ) (s c : ℚ → ℚ) (ts1 ts2 : String) (w w1 w2 : World)
    (h1 : runOnce p s c ts1 w = some w1)
    (h2 : runOnce p s c ts2 w1 = some w2) :
    (∃ st1 st2, w1.stateFile = some st1 ∧ w2.stateFile = some st2
        ∧ st2.aspects.map Aspect.field_vector = st1.aspects.map Aspect.field_vector)
    ∧ (w1.logFile.getD []).length = (w.logFile.getD []).length + 1
    ∧ (w2.logFile.getD []).length = (w1.logFile.getD []).length + 1 := by
  obtain ⟨-, hw1⟩ := runOnce_some_inv p s c ts1 w w1 h1
  obtain ⟨-, hw2⟩ := runOnce_some_inv p s c ts2 w1 w2 h2
  subst hw1
  subst hw2
  have haspects : updated_aspects p s c (run_world p s c ts1 w)
      = updated_aspects p s c w := by
    simp only [updated_aspects, run_world, current_aspects, List.map_map]
    rfl
  refine ⟨⟨_, _, rfl, rfl, ?_⟩, ?_, ?_⟩
  · exact congrArg (List.map Aspect.field_vector) haspects
  · simp [run_world]
  · simp [run_world]

/-- Concrete check for claim C8: two consecutive runs from an
all-absent world. -/
theorem claim_C8_witness :
    (∃ st1 st2, w1c.stateFile = some st1 ∧ w2c.stateFile = some st2
        ∧ st2.aspects.map Aspect.field_vector = st1.aspects.map Aspect.field_vector)
    ∧ (w1c.logFile.getD []).length = (world0.logFile.getD []).length + 1
    ∧ (w2c.logFile.getD []).length = (w1c.logFile.getD []).length + 1 :=
  claim_C8_rerun_stable 2 qid qid "t1" "t2" world0 w1c w2c (by rfl) (by rfl)

/-- Claim C9: `normalize v lo hi` returns `0` when `hi ≤ lo` and
`(v - lo) / (hi - lo)` otherwise, so the division only happens with a
positive denominator; the result is not clamped and can leave `[0,1]`
on either side when `v` lies outside `[lo,hi]`. -/
theorem claim_C9_normalize (v lo hi : ℚ) :
    (hi ≤ lo → normalize v lo hi = 0)
    ∧ (lo < hi → normalize v lo hi = (v - lo) / (hi - lo))
    ∧ (∃ v2 lo2 hi2 : ℚ, lo2 < hi2 ∧ 1 < normalize v2 lo2 hi2)
    ∧ (∃ v2 lo2 hi2 : ℚ, lo2 < hi2 ∧ normalize v2 lo2 hi2 < 0) := by
  refine ⟨fun h => by simp [normalize, h],
    fun h => by simp [normalize, not_le.mpr h],
    ⟨3, 0, 1, by norm_num, by norm_num [normalize]⟩,
    ⟨-1, 0, 1, by norm_num, by norm_num [normalize]⟩⟩

/-- Concrete check for claim C9: the degenerate branch and the dividing
branch. -/
theorem claim_C9_witness :
    normalize 0 1 0 = 0 ∧ normalize 5 0 2 = (5 - 0) / (2 - 0) :=
  ⟨(claim_C9_normalize 0 1 0).1 (by norm_num),
   (claim_C9_normalize 5 0 2).2.1 (by norm_num)⟩

/-- Claim C10: `update_aspect` leaves the `name`, `ring` and `stage`
fields of the record unchanged; only `activation` and `field_vector`
are written. -/
theorem claim_C10_frame (p : ℚ) (s c : ℚ → ℚ) (a : Aspect) (ci cf : ℚ) :
    (update_aspect p s c a ci cf).name = a.name
    ∧ (update_aspect p s c a ci cf).ring = a.ring
    ∧ (update_aspect p s c a ci cf).stage = a.stage :=
  ⟨rfl, rfl, rfl⟩

end SelfClock
